import Mathlib

/-!
Shallow embedding of the aether-db server core (crates/common and crates/db).

Conventions of the embedding:
* `time::OffsetDateTime` is modelled as an `Int` (seconds on the UTC timeline);
  the representable range of the `time` crate (years -9999..=9999) is the
  interval `[MIN_TIMESTAMP, MAX_TIMESTAMP]`, and `checked_add` fails outside it.
* `std::collections::HashMap` is modelled as an association list whose keys are
  unique (`NodupKeys`); `insert` replaces the existing binding, `remove` drops
  it, iteration order is the list order (results proved here do not depend on
  the order except through `min`, whose value is order-independent).
* JSON documents are the inductive `Json`; serde's externally tagged enum
  representation and struct deserialization (unknown fields ignored, `Option`
  fields defaulting to `none` when absent unless a `with` attribute is
  present) are modelled field-by-field.  serde rejects duplicate object keys,
  so objects are assumed to bind each key at most once.
* The ISO-8601 datetime parser of the `time` crate is external to the
  repository, so decoders take it as an explicit parameter
  `parseIso : String → Option Int`; every theorem quantifies over it.
-/

/-- JSON values as produced by `serde_json` (numbers restricted to the
integers, which covers every payload the claims mention). -/
inductive Json where
  | null : Json
  | bool (b : Bool) : Json
  | num (n : Int) : Json
  | str (s : String) : Json
  | arr (elems : List Json) : Json
  | obj (fields : List (String × Json)) : Json

/-- First-binding association-list lookup; on unique-key lists this is exactly
`HashMap::get`. -/
def lookupEntry {α : Type} (key : String) : List (String × α) → Option α
  | [] => none
  | (k, v) :: rest => if k = key then some v else lookupEntry key rest

/-- `HashMap::insert`: replace the binding of `key` if present, append it
otherwise. -/
def insertEntry {α : Type} (key : String) (v : α) : List (String × α) → List (String × α)
  | [] => [(key, v)]
  | (k, w) :: rest => if k = key then (key, v) :: rest else (k, w) :: insertEntry key v rest

/-- `HashMap::remove`: drop the binding of `key` if present. -/
def removeEntry {α : Type} (key : String) : List (String × α) → List (String × α)
  | [] => []
  | (k, w) :: rest => if k = key then rest else (k, w) :: removeEntry key rest

/-- The `HashMap` representation invariant: every key bound at most once. -/
def NodupKeys {α : Type} (l : List (String × α)) : Prop :=
  (l.map Prod.fst).Nodup

/-- `aether_common::db::Data` (crates/common/src/db.rs, lines 12-18). -/
inductive Data where
  | string (s : String) : Data
  | json (v : Json) : Data
  | int (n : Int) : Data

/-- `aether_common::db::Value` (crates/common/src/db.rs, lines 5-10): a data
variant plus an optional absolute expiry instant. -/
structure Value where
  data : Data
  expiry : Option Int

/-- `aether_common::db::BroadcastMessage` (crates/common/src/db.rs, 20-26). -/
structure BroadcastMessage where
  client_id : String
  channel : String
  message : String

/-- `SubscriptionOptions` (crates/db/src/db/mod.rs, lines 19-22). -/
structure SubscriptionOptions where
  subscribe_to_self : Bool
deriving DecidableEq

/-- The backing map of `Table`/`Store` (crates/db/src/db/table.rs):
`RwLock<HashMap<String, Value>>` as a unique-key association list. -/
abbrev TableState := List (String × Value)

/-- `Table::get` (crates/db/src/db/table.rs, lines 30-33): clone the entry at
`key` out of the map.  The source performs no expiry comparison here. -/
def Table.get (st : TableState) (key : String) : Option Value :=
  lookupEntry key st

/-- The minimum of a list of instants (empty list: `none`). -/
def minExpiry : List Int → Option Int
  | [] => none
  | e :: rest =>
    match minExpiry rest with
    | none => some e
    | some m => some (min e m)

/-- `Store::next_expiration` (crates/db/src/db/table.rs, lines 73-80): the
least expiry among entries that carry one.  `min_by_key` returns an entry with
the minimal `expiry`, and the function yields that expiry, so only the minimum
value matters, not which entry attains it. -/
def nextExpiration (st : TableState) : Option Int :=
  minExpiry (st.filterMap (fun kv => kv.2.expiry))

/-- `Table::set` (crates/db/src/db/table.rs, lines 35-62).  The next expiration
is read before the insert; the returned flag records whether
`background_task.notify_one()` is called afterwards. -/
def Table.set (st : TableState) (key : String) (value : Value) : TableState × Bool :=
  let next_expiration := nextExpiration st
  let should_notify :=
    match next_expiration, value.expiry with
    | none, none => false
    | none, some _ => true
    | some _, none => false
    | some n, some e => e < n
  (insertEntry key value st, should_notify)

/-- The `retain` predicate of the reaper (crates/db/src/db/table.rs, line 89):
`value.expiry.map_or(true, |expiry| now <= expiry)`. -/
def retainsValue (now : Int) (value : Value) : Bool :=
  match value.expiry with
  | none => true
  | some expiry => now ≤ expiry

/-- `Store::remove_expired_values` (crates/db/src/db/table.rs, lines 82-101):
retain the live entries, then report the duration until the next expiration,
floored at zero (`max(Duration::ZERO, e - now).unsigned_abs()`). -/
def Store.remove_expired_values (st : TableState) (now : Int) : TableState × Option Nat :=
  let st' := st.filter (fun kv => retainsValue now kv.2)
  (st', (nextExpiration st').map (fun e => (e - now).toNat))

/-- The per-client subscription map: `HashMap<String, SubscriptionOptions>`. -/
abbrev Subscriptions := List (String × SubscriptionOptions)

/-- The registry field of `Database` (crates/db/src/db/mod.rs, line 14):
`HashMap<String, HashMap<String, SubscriptionOptions>>`. -/
abbrev Registry := List (String × Subscriptions)

/-- `Database::add_subscription` (crates/db/src/db/mod.rs, lines 31-42):
`subscriptions.entry(client_id).or_default().insert(channel, subscription)`. -/
def Database.add_subscription (st : Registry) (client_id channel : String)
    (subscription : SubscriptionOptions) : Registry :=
  let current := (lookupEntry client_id st).getD []
  insertEntry client_id (insertEntry channel subscription current) st

/-- `Database::remove_subscription` (crates/db/src/db/mod.rs, lines 44-48):
`subscriptions.entry(client_id).or_default().remove(channel)`; note that the
`entry(..).or_default()` materialises an empty map for an absent client. -/
def Database.remove_subscription (st : Registry) (client_id : String)
    (channel : String) : Registry :=
  let current := (lookupEntry client_id st).getD []
  insertEntry client_id (removeEntry channel current) st

/-- `Database::get_subscriptions` (crates/db/src/db/mod.rs, lines 50-53):
`subscriptions.get(client_id).cloned().unwrap_or_default()`. -/
def Database.get_subscriptions (st : Registry) (client_id : String) : Subscriptions :=
  (lookupEntry client_id st).getD []

/-- `should_send_message` (crates/db/src/ws/mod.rs, lines 229-247; the same
function appears in crates/db/src/ws.rs, lines 331-349, and
crates/db/src/ws/compute.rs, lines 9-27). -/
def should_send_message (client_id : String) (message : BroadcastMessage)
    (subscriptions : Subscriptions) : Bool :=
  message.channel == "global"
    || ((lookupEntry message.channel subscriptions).isSome
        && (message.client_id != client_id
            || (((lookupEntry message.channel subscriptions).map
                  (fun sub => sub.subscribe_to_self)).getD false)))

/-- `aether_common::command::Value` (crates/common/src/command.rs, lines
43-50): the wire-side value, carrying a TTL in seconds (`expiry: Option<u32>`)
and an absolute instant (`expire_at: Option<OffsetDateTime>`, serialized
through `time::serde::iso8601::option`). -/
structure CmdValue where
  data : Data
  expiry : Option Nat
  expire_at : Option Int

/-- `aether_common::command::Command` (crates/common/src/command.rs, 9-41). -/
inductive Command where
  | subscribeBroadcast (channel : String) (subscribe_to_self : Bool) : Command
  | unsubscribeBroadcast (channel : String) : Command
  | sendBroadcast (channel : String) (message : String) : Command
  | set (key : String) (value : CmdValue) : Command
  | get (key : String) : Command

/-- serde deserialization of `Data` (externally tagged enum with
`rename_all = "snake_case"`): a JSON object with exactly one key naming the
variant.  `{"int": n}` requires an `i64`; `{"json": v}` accepts any value. -/
def decodeData : Json → Except String Data
  | Json.obj [(tag, body)] =>
    if tag = "string" then
      match body with
      | Json.str s => Except.ok (Data.string s)
      | _ => Except.error "invalid type for variant string"
    else if tag = "json" then
      Except.ok (Data.json body)
    else if tag = "int" then
      match body with
      | Json.num n =>
        if -9223372036854775808 ≤ n ∧ n ≤ 9223372036854775807 then
          Except.ok (Data.int n)
        else Except.error "invalid value: out of range for i64"
      | _ => Except.error "invalid type for variant int"
    else Except.error "unknown variant"
  | _ => Except.error "expected a map with a single key"

/-- serde deserialization of the `expiry: Option<u32>` field: `Option` fields
without a `with` attribute default to `None` when the key is absent; `null`
also yields `None`; a number must be a `u32`. -/
def decodeExpiryField : Option Json → Except String (Option Nat)
  | none => Except.ok none
  | some Json.null => Except.ok none
  | some (Json.num n) =>
    if 0 ≤ n ∧ n ≤ 4294967295 then Except.ok (some n.toNat)
    else Except.error "invalid value: out of range for u32"
  | some _ => Except.error "invalid type for field expiry"

/-- serde deserialization of the `expire_at` field.  Because the field carries
`#[serde(with = "time::serde::iso8601::option")]` and no `#[serde(default)]`,
an ABSENT key is a `missing field` error; `null` yields `None`; a string is
handed to the `time` crate's ISO-8601 parser (the `parseIso` parameter). -/
def decodeExpireAtField (parseIso : String → Option Int) :
    Option Json → Except String (Option Int)
  | none => Except.error "missing field expire_at"
  | some Json.null => Except.ok none
  | some (Json.str s) =>
    match parseIso s with
    | some t => Except.ok (some t)
    | none => Except.error "invalid ISO-8601 datetime"
  | some _ => Except.error "invalid type for field expire_at"

/-- serde deserialization of `command::Value` from a JSON object (field order
immaterial, unknown fields ignored): `data` is required, `expiry` and
`expire_at` as above. -/
def decodeCmdValue (parseIso : String → Option Int) : Json → Except String CmdValue
  | Json.obj fields =>
    match lookupEntry "data" fields with
    | none => Except.error "missing field data"
    | some dj =>
      match decodeData dj with
      | Except.error e => Except.error e
      | Except.ok d =>
        match decodeExpiryField (lookupEntry "expiry" fields) with
        | Except.error e => Except.error e
        | Except.ok exp =>
          match decodeExpireAtField parseIso (lookupEntry "expire_at" fields) with
          | Except.error e => Except.error e
          | Except.ok ea => Except.ok { data := d, expiry := exp, expire_at := ea }
  | _ => Except.error "expected struct Value"

/-- Decode a required `String` field of a struct body. -/
def decodeStrField (name : String) (fields : List (String × Json)) :
    Except String String :=
  match lookupEntry name fields with
  | some (Json.str s) => Except.ok s
  | some _ => Except.error "invalid type"
  | none => Except.error "missing field"

/-- serde deserialization of `Command` (externally tagged enum,
`rename_all = "snake_case"`): an object with exactly one key naming the
variant; struct variants decode their named fields, `unsubscribe_broadcast`
is a newtype around a string, `subscribe_to_self` carries `#[serde(default)]`
so an absent key yields `false`. -/
def decodeCommand (parseIso : String → Option Int) : Json → Except String Command
  | Json.obj [(tag, body)] =>
    if tag = "subscribe_broadcast" then
      match body with
      | Json.obj fields =>
        match decodeStrField "channel" fields with
        | Except.error e => Except.error e
        | Except.ok channel =>
          match lookupEntry "subscribe_to_self" fields with
          | none => Except.ok (Command.subscribeBroadcast channel false)
          | some (Json.bool b) => Except.ok (Command.subscribeBroadcast channel b)
          | some _ => Except.error "invalid type for field subscribe_to_self"
      | _ => Except.error "expected struct variant"
    else if tag = "unsubscribe_broadcast" then
      match body with
      | Json.str s => Except.ok (Command.unsubscribeBroadcast s)
      | _ => Except.error "invalid type"
    else if tag = "send_broadcast" then
      match body with
      | Json.obj fields =>
        match decodeStrField "channel" fields with
        | Except.error e => Except.error e
        | Except.ok channel =>
          match decodeStrField "message" fields with
          | Except.error e => Except.error e
          | Except.ok msg => Except.ok (Command.sendBroadcast channel msg)
      | _ => Except.error "expected struct variant"
    else if tag = "set" then
      match body with
      | Json.obj fields =>
        match decodeStrField "key" fields with
        | Except.error e => Except.error e
        | Except.ok key =>
          match lookupEntry "value" fields with
          | none => Except.error "missing field value"
          | some vj =>
            match decodeCmdValue parseIso vj with
            | Except.error e => Except.error e
            | Except.ok v => Except.ok (Command.set key v)
      | _ => Except.error "expected struct variant"
    else if tag = "get" then
      match body with
      | Json.obj fields =>
        match decodeStrField "key" fields with
        | Except.error e => Except.error e
        | Except.ok key => Except.ok (Command.get key)
      | _ => Except.error "expected struct variant"
    else Except.error "unknown variant"
  | _ => Except.error "expected a map with a single key"

/-- `aether_common::message::StatusMessage` (crates/common/src/message.rs,
lines 30-36). -/
inductive StatusMessage where
  | ok : StatusMessage
  | error (message : String) (operation : Option Command) : StatusMessage

/-- `axum::extract::ws::Message`, as matched by the reader. -/
inductive WsMessage where
  | text (t : String) : WsMessage
  | binary (d : List Nat) : WsMessage
  | ping (v : List Nat) : WsMessage
  | pong (v : List Nat) : WsMessage
  | close (c : Option (Nat × String)) : WsMessage

/-- `std::ops::ControlFlow<(), ()>`. -/
inductive ControlFlow where
  | Continue : ControlFlow
  | Break : ControlFlow
deriving DecidableEq

/-- What one call of the reader's per-frame handler enqueues and returns. -/
structure ReadEffect where
  sentCommand : Option Command
  sentStatus : Option StatusMessage
  flow : ControlFlow

/-- `process_message` (crates/db/src/ws/read.rs, lines 27-110; the same logic
is `process_command` in crates/db/src/ws.rs, lines 246-329).  The serde_json
entry points `from_str`/`from_slice` are taken as parameters. -/
def process_message
    (fromStr : String → Except String Command)
    (fromSlice : List Nat → Except String Command) :
    WsMessage → ReadEffect
  | WsMessage.text t =>
    match fromStr t with
    | Except.ok c =>
      { sentCommand := some c, sentStatus := none, flow := ControlFlow.Continue }
    | Except.error _ =>
      { sentCommand := none
        sentStatus := some (StatusMessage.error "Could not deserialize string message" none)
        flow := ControlFlow.Continue }
  | WsMessage.binary d =>
    match fromSlice d with
    | Except.ok c =>
      { sentCommand := some c, sentStatus := none, flow := ControlFlow.Continue }
    | Except.error _ =>
      { sentCommand := none
        sentStatus := some (StatusMessage.error "Could not deserialize binary message" none)
        flow := ControlFlow.Continue }
  | WsMessage.pong _ => { sentCommand := none, sentStatus := none, flow := ControlFlow.Continue }
  | WsMessage.ping _ => { sentCommand := none, sentStatus := none, flow := ControlFlow.Continue }
  | WsMessage.close _ => { sentCommand := none, sentStatus := none, flow := ControlFlow.Break }

/-- Lower bound of `time::OffsetDateTime` as a UTC timestamp
(-9999-01-01T00:00:00Z in seconds). -/
def MIN_TIMESTAMP : Int := -377705116800

/-- Upper bound of `time::OffsetDateTime` as a UTC timestamp
(+9999-12-31T23:59:59Z in seconds). -/
def MAX_TIMESTAMP : Int := 253402300799

/-- `OffsetDateTime::checked_add(Duration::new(seconds, 0))`: `None` when the
sum leaves the representable range; never wraps. -/
def checkedAdd (t : Int) (seconds : Int) : Option Int :=
  if MIN_TIMESTAMP ≤ t + seconds ∧ t + seconds ≤ MAX_TIMESTAMP then some (t + seconds)
  else none

/-- The expiration computation of the `Command::SetString` arm
(crates/db/src/ws.rs, lines 101-105):
`expiration.and_then(|s| OffsetDateTime::now_utc().checked_add(Duration::new(s as i64, 0)))`. -/
def setStringExpiration (now : Int) (expiration : Option Nat) : Option Int :=
  expiration.bind (fun s => checkedAdd now (Int.ofNat s))

/-- The generic value of crates/db/src/db.rs (lines 17-20): payload plus
optional expiry. -/
structure DbValue (V : Type) where
  value : V
  expiry : Option Int

/-- `Database::set` of the generic store (crates/db/src/db.rs, lines 39-71):
read the next expiration, insert, and decide whether to notify the reaper
(same decision table as `Table::set`). -/
def Database.set {V : Type} (st : List (String × DbValue V)) (key : String)
    (value : V) (expiration : Option Int) : List (String × DbValue V) × Bool :=
  let next_expiration :=
    minExpiry (st.filterMap (fun kv => kv.2.expiry))
  let should_notify :=
    match next_expiration, expiration with
    | none, none => false
    | none, some _ => true
    | some _, none => false
    | some n, some e => e < n
  (insertEntry key { value := value, expiry := expiration } st, should_notify)

/-- The full `Command::SetString` arm (crates/db/src/ws.rs, lines 101-105):
compute the absolute expiration from the TTL and store through
`Database::set`. -/
def handleSetString (st : List (String × DbValue String)) (key value : String)
    (expiration : Option Nat) (now : Int) : List (String × DbValue String) × Bool :=
  Database.set st key value (setStringExpiration now expiration)

/-! ## Association-list lemmas (the `HashMap` model) -/

/-- Lookup after insert: the new binding shadows the old one. -/
theorem lookupEntry_insertEntry {α : Type} (k2 k : String) (v : α)
    (l : List (String × α)) :
    lookupEntry k2 (insertEntry k v l) =
      if k2 = k then some v else lookupEntry k2 l := by
  induction l with
  | nil =>
    by_cases h : k2 = k
    · subst h; simp [insertEntry, lookupEntry]
    · have h' : ¬ k = k2 := fun hh => h hh.symm
      simp [insertEntry, lookupEntry, h, h']
  | cons hd tl ih =>
    obtain ⟨k', w⟩ := hd
    by_cases hk : k' = k
    · subst hk
      by_cases h2 : k2 = k'
      · subst h2; simp [insertEntry, lookupEntry]
      · have h2' : ¬ k' = k2 := fun hh => h2 hh.symm
        simp [insertEntry, lookupEntry, h2, h2']
    · by_cases h2 : k2 = k'
      · subst h2
        simp [insertEntry, lookupEntry, hk]
      · have h2' : ¬ k' = k2 := fun hh => h2 hh.symm
        simp [insertEntry, lookupEntry, hk, h2, h2', ih]

/-- Removing an absent key is the identity. -/
theorem removeEntry_eq_self {α : Type} (k : String) (l : List (String × α))
    (h : lookupEntry k l = none) : removeEntry k l = l := by
  induction l with
  | nil => rfl
  | cons hd tl ih =>
    obtain ⟨k', w⟩ := hd
    by_cases hk : k' = k
    · simp [lookupEntry, hk] at h
    · simp [lookupEntry, hk] at h
      simp [removeEntry, hk, ih h]

/-- An absent key stays absent under `filter`. -/
theorem lookupEntry_filter_none {α : Type} (p : String × α → Bool) (k : String)
    (l : List (String × α)) (h : lookupEntry k l = none) :
    lookupEntry k (l.filter p) = none := by
  induction l with
  | nil => rfl
  | cons hd tl ih =>
    obtain ⟨k', w⟩ := hd
    by_cases hk : k' = k
    · simp [lookupEntry, hk] at h
    · simp [lookupEntry, hk] at h
      by_cases hp : p (k', w) <;> simp [List.filter, hp, lookupEntry, hk, ih h]

/-- If the bound value passes the retention predicate, the binding survives
`filter` (no key-uniqueness needed: the surviving binding stays first). -/
theorem lookupEntry_filter_retained {α : Type} (p : String × α → Bool) (k : String)
    (v : α) (l : List (String × α)) (h : lookupEntry k l = some v)
    (hp : p (k, v) = true) : lookupEntry k (l.filter p) = some v := by
  induction l with
  | nil => simp [lookupEntry] at h
  | cons hd tl ih =>
    obtain ⟨k', w⟩ := hd
    by_cases hk : k' = k
    · subst hk
      simp [lookupEntry] at h
      subst h
      simp [List.filter, hp, lookupEntry]
    · simp [lookupEntry, hk] at h
      by_cases hq : p (k', w) <;> simp [List.filter, hq, lookupEntry, hk, ih h]

/-- A key that occurs nowhere in the list looks up to `none`. -/
theorem lookupEntry_eq_none_of_not_mem {α : Type} (k : String)
    (l : List (String × α)) (h : k ∉ l.map Prod.fst) : lookupEntry k l = none := by
  induction l with
  | nil => rfl
  | cons hd tl ih =>
    obtain ⟨k', w⟩ := hd
    simp only [List.map_cons, List.mem_cons, not_or] at h
    have h1 : ¬ k' = k := fun hh => h.1 hh.symm
    simp [lookupEntry, h1, ih h.2]

/-- On unique-key lists, a binding whose value fails the retention predicate is
gone after `filter`. -/
theorem lookupEntry_filter_dropped {α : Type} (p : String × α → Bool) (k : String)
    (v : α) (l : List (String × α)) (hnd : NodupKeys l)
    (h : lookupEntry k l = some v) (hp : p (k, v) = false) :
    lookupEntry k (l.filter p) = none := by
  induction l with
  | nil => simp [lookupEntry] at h
  | cons hd tl ih =>
    obtain ⟨k', w⟩ := hd
    rw [NodupKeys, List.map_cons, List.nodup_cons] at hnd
    by_cases hk : k' = k
    · subst hk
      simp [lookupEntry] at h
      subst h
      have habs : lookupEntry k' tl = none :=
        lookupEntry_eq_none_of_not_mem k' tl hnd.1
      simp [List.filter, hp]
      exact lookupEntry_filter_none p k' tl habs
    · simp [lookupEntry, hk] at h
      by_cases hq : p (k', w) <;>
        simp [List.filter, hq, lookupEntry, hk, ih (show NodupKeys tl from hnd.2) h]

/-! ## Claim theorems -/

/-- C1, counterexample: the claim says an expired-but-not-yet-reaped entry is
not returned by `Get`.  In the state holding `"k"` with expiry instant `0`,
read at time `5` (past the expiry), `Table::get` still returns the entry. -/
theorem c1_get_counterexample :
    (0 : Int) < 5 ∧
      Table.get [("k", { data := Data.int 1, expiry := some 0 })] "k"
        = some { data := Data.int 1, expiry := some 0 } :=
  ⟨by norm_num, rfl⟩

/-- C1, amended: `Table::get` performs no expiry comparison; whenever the entry
for `key` is present in the map it is returned, even when its expiry instant
`e` lies strictly before the reading time `now`. -/
theorem c1_get_ignores_expiry (st : TableState) (key : String) (d : Data)
    (e now : Int)
    (hlk : lookupEntry key st = some { data := d, expiry := some e })
    (hexpired : e < now) :
    Table.get st key = some { data := d, expiry := some e } := hlk

/-- C1, witness: the amended theorem applied to the one-entry expired state. -/
theorem c1_get_ignores_expiry_witness :
    lookupEntry "k" ([("k", { data := Data.int 1, expiry := some 0 })] : TableState)
        = some { data := Data.int 1, expiry := some 0 } ∧
      (0 : Int) < 5 ∧
      Table.get [("k", { data := Data.int 1, expiry := some 0 })] "k"
        = some { data := Data.int 1, expiry := some 0 } :=
  ⟨rfl, by norm_num,
    c1_get_ignores_expiry [("k", { data := Data.int 1, expiry := some 0 })] "k"
      (Data.int 1) 0 5 rfl (by norm_num)⟩

/-- C3: the writer forwards a broadcast envelope iff its channel is `"global"`,
or the channel is in the local subscription table and the envelope is not the
receiver's own (or self-delivery was opted into for that channel). -/
theorem c3_delivery_filter (client_id : String) (message : BroadcastMessage)
    (subscriptions : Subscriptions) :
    should_send_message client_id message subscriptions = true ↔
      (message.channel = "global" ∨
        ∃ o, lookupEntry message.channel subscriptions = some o ∧
          (message.client_id ≠ client_id ∨ o.subscribe_to_self = true)) := by
  cases h : lookupEntry message.channel subscriptions with
  | none => simp [should_send_message, h]
  | some o => simp [should_send_message, h]

/-- C4: `Table::set` posts the reaper wake notification iff the table
previously tracked no next expiry and the new value has one, or both exist and
the new expiry strictly precedes the tracked one; a value without expiry never
notifies. -/
theorem c4_set_notifies_iff_sooner (st : TableState) (key : String) (value : Value) :
    (Table.set st key value).2 = true ↔
      ((nextExpiration st = none ∧ ∃ e, value.expiry = some e) ∨
        ∃ n e, nextExpiration st = some n ∧ value.expiry = some e ∧ e < n) := by
  cases hn : nextExpiration st <;> cases hv : value.expiry <;>
    simp [Table.set, hn, hv]

/-- C10: an envelope on channel `"global"` passes the delivery filter for every
receiver, including the envelope's own sender with no subscription entry. -/
theorem c10_global_always_delivered (client_id : String)
    (message : BroadcastMessage) (subscriptions : Subscriptions)
    (hg : message.channel = "global") :
    should_send_message client_id message subscriptions = true := by
  simp [should_send_message, hg]

/-- C10, witness: the sender itself, with an empty subscription table (hence no
`subscribe_to_self` opt-in), still receives its own `"global"` broadcast. -/
theorem c10_global_always_delivered_witness :
    ({ client_id := "a", channel := "global", message := "hi" } : BroadcastMessage).channel
        = "global" ∧
      should_send_message "a"
        { client_id := "a", channel := "global", message := "hi" } [] = true :=
  ⟨rfl, c10_global_always_delivered "a"
    { client_id := "a", channel := "global", message := "hi" } [] rfl⟩

/-- C5, counterexample: the claim says a pass removes every entry with
`expiry ≤ now`, including equality.  With one entry whose expiry instant is
exactly `now = 10`, the pass keeps it: the retain predicate is `now <= expiry`. -/
theorem c5_reaper_boundary_counterexample :
    (10 : Int) ≤ 10 ∧
      lookupEntry "k"
        (Store.remove_expired_values
          [("k", { data := Data.int 1, expiry := some 10 })] 10).1
        = some { data := Data.int 1, expiry := some 10 } :=
  ⟨le_refl 10, rfl⟩

/-- C5, amended: a reaper pass reading time `now` removes exactly the entries
whose expiry lies strictly before `now`; an entry whose expiry equals `now`
(or lies at or after `now`) survives the pass. -/
theorem c5_reaper_removes_strictly_expired (st : TableState) (now : Int)
    (key : String) (v : Value) (e : Int) (hnd : NodupKeys st)
    (hlk : lookupEntry key st = some v) (hv : v.expiry = some e) :
    (e < now → lookupEntry key (Store.remove_expired_values st now).1 = none) ∧
    (now ≤ e → lookupEntry key (Store.remove_expired_values st now).1 = some v) := by
  constructor
  · intro hlt
    have hp : retainsValue now v = false := by
      simp [retainsValue, hv]
      omega
    exact lookupEntry_filter_dropped _ key v st hnd hlk hp
  · intro hle
    have hp : retainsValue now v = true := by
      simp [retainsValue, hv]
      omega
    exact lookupEntry_filter_retained _ key v st hlk hp

/-- C5, witness: in a two-entry state at `now = 5`, the entry expiring at `0`
is removed and the entry expiring at `5` (equal to `now`) survives. -/
theorem c5_reaper_removes_strictly_expired_witness :
    NodupKeys ([("old", { data := Data.int 1, expiry := some 0 }),
        ("edge", { data := Data.int 2, expiry := some 5 })] : TableState) ∧
      lookupEntry "old"
        (Store.remove_expired_values
          [("old", { data := Data.int 1, expiry := some 0 }),
            ("edge", { data := Data.int 2, expiry := some 5 })] 5).1 = none := by
  have hnd : NodupKeys ([("old", { data := Data.int 1, expiry := some 0 }),
      ("edge", { data := Data.int 2, expiry := some 5 })] : TableState) := by
    simp [NodupKeys]
  exact ⟨hnd,
    (c5_reaper_removes_strictly_expired
      [("old", { data := Data.int 1, expiry := some 0 }),
        ("edge", { data := Data.int 2, expiry := some 5 })] 5 "old"
      { data := Data.int 1, expiry := some 0 } 0 hnd rfl rfl).1 (by norm_num)⟩

/-- C6: the reaper never removes a non-expired entry — an entry whose expiry is
absent, or whose expiry `e` satisfies `now ≤ e` at the pass's clock read, is
still present afterwards. -/
theorem c6_reaper_keeps_live (st : TableState) (now : Int) (key : String)
    (v : Value)
    (hlk : lookupEntry key st = some v)
    (hlive : v.expiry = none ∨ ∃ e, v.expiry = some e ∧ now ≤ e) :
    lookupEntry key (Store.remove_expired_values st now).1 = some v := by
  have hp : retainsValue now v = true := by
    rcases hlive with h | ⟨e, he, hle⟩
    · simp [retainsValue, h]
    · simp [retainsValue, he]
      omega
  exact lookupEntry_filter_retained _ key v st hlk hp

/-- C6, witness: a no-expiry entry and a future-expiry entry both survive a
pass at `now = 7`. -/
theorem c6_reaper_keeps_live_witness :
    lookupEntry "forever"
        ([("forever", { data := Data.int 1, expiry := none }),
          ("later", { data := Data.int 2, expiry := some 9 })] : TableState)
        = some { data := Data.int 1, expiry := none } ∧
      lookupEntry "forever"
        (Store.remove_expired_values
          [("forever", { data := Data.int 1, expiry := none }),
            ("later", { data := Data.int 2, expiry := some 9 })] 7).1
        = some { data := Data.int 1, expiry := none } :=
  ⟨rfl,
    c6_reaper_keeps_live
      [("forever", { data := Data.int 1, expiry := none }),
        ("later", { data := Data.int 2, expiry := some 9 })] 7 "forever"
      { data := Data.int 1, expiry := none } rfl (Or.inl rfl)⟩

/-- C7: when a Text frame's payload fails to decode as a `Command`, the reader
enqueues `StatusMessage::Error` with message exactly
"Could not deserialize string message" and no operation, sends nothing on the
command channel, and returns `Continue` — the connection is not closed. -/
theorem c7_text_decode_failure (fromStr : String → Except String Command)
    (fromSlice : List Nat → Except String Command) (t err : String)
    (hfail : fromStr t = Except.error err) :
    process_message fromStr fromSlice (WsMessage.text t) =
      { sentCommand := none
        sentStatus := some
          (StatusMessage.error "Could not deserialize string message" none)
        flow := ControlFlow.Continue } := by
  simp [process_message, hfail]

/-- C7, witness: a decoder rejecting everything, applied to the payload
"not json". -/
theorem c7_text_decode_failure_witness :
    (fun (_ : String) => (Except.error "invalid" : Except String Command)) "not json"
        = Except.error "invalid" ∧
      process_message (fun _ => Except.error "invalid")
        (fun _ => Except.error "invalid") (WsMessage.text "not json") =
      { sentCommand := none
        sentStatus := some
          (StatusMessage.error "Could not deserialize string message" none)
        flow := ControlFlow.Continue } :=
  ⟨rfl, c7_text_decode_failure (fun _ => Except.error "invalid")
    (fun _ => Except.error "invalid") "not json" "invalid" rfl⟩

/-- C8: when adding the TTL seconds to `now` leaves the representable datetime
range, `checked_add` yields `None`, so the value is stored with no expiry; the
sum never wraps and the command is not an error. -/
theorem c8_ttl_overflow_means_no_expiry (st : List (String × DbValue String))
    (key value : String) (now : Int) (s : Nat)
    (hu32 : s < 4294967296)
    (hover : MAX_TIMESTAMP < now + (s : Int)) :
    setStringExpiration now (some s) = none ∧
      lookupEntry key (handleSetString st key value (some s) now).1 =
        some { value := value, expiry := none } := by
  have hexp : setStringExpiration now (some s) = none := by
    simp [setStringExpiration, checkedAdd]
    intro _
    omega
  refine ⟨hexp, ?_⟩
  have : handleSetString st key value (some s) now = Database.set st key value none := by
    simp [handleSetString, hexp]
  rw [this]
  simp [Database.set, lookupEntry_insertEntry]

/-- C8, witness: a TTL of 1 second starting at the maximal representable
instant overflows; the entry is stored with `expiry = none`. -/
theorem c8_ttl_overflow_means_no_expiry_witness :
    1 < 4294967296 ∧ MAX_TIMESTAMP < MAX_TIMESTAMP + ((1 : Nat) : Int) ∧
      (setStringExpiration MAX_TIMESTAMP (some 1) = none ∧
        lookupEntry "k" (handleSetString [] "k" "v" (some 1) MAX_TIMESTAMP).1 =
          some { value := "v", expiry := none }) :=
  ⟨by norm_num, by omega,
    c8_ttl_overflow_means_no_expiry [] "k" "v" MAX_TIMESTAMP 1 (by norm_num) (by omega)⟩

/-- C9: registry operations are idempotent at the `get_subscriptions` snapshot
level — removing a channel that is not in the client's snapshot changes no
client's snapshot, and adding the same subscription twice gives the same
snapshots as adding it once. -/
theorem c9_subscription_idempotence (st : Registry) (c ch : String)
    (o : SubscriptionOptions) :
    (lookupEntry ch (Database.get_subscriptions st c) = none →
      ∀ c2 ch2,
        lookupEntry ch2
            (Database.get_subscriptions (Database.remove_subscription st c ch) c2)
          = lookupEntry ch2 (Database.get_subscriptions st c2)) ∧
    (∀ c2 ch2,
      lookupEntry ch2
          (Database.get_subscriptions
            (Database.add_subscription (Database.add_subscription st c ch o) c ch o) c2)
        = lookupEntry ch2
            (Database.get_subscriptions (Database.add_subscription st c ch o) c2)) := by
  constructor
  · intro h c2 ch2
    have hrm : removeEntry ch ((lookupEntry c st).getD []) =
        (lookupEntry c st).getD [] :=
      removeEntry_eq_self ch _ (by simpa [Database.get_subscriptions] using h)
    by_cases hc : c2 = c
    · subst hc
      simp [Database.remove_subscription, Database.get_subscriptions,
        lookupEntry_insertEntry, hrm]
    · simp [Database.remove_subscription, Database.get_subscriptions,
        lookupEntry_insertEntry, hc]
  · intro c2 ch2
    by_cases hc : c2 = c
    · subst hc
      simp only [Database.add_subscription, Database.get_subscriptions,
        lookupEntry_insertEntry, if_pos rfl, Option.getD_some]
      by_cases hch : ch2 = ch <;> simp [lookupEntry_insertEntry, hch]
    · simp [Database.add_subscription, Database.get_subscriptions,
        lookupEntry_insertEntry, hc]

/-- C9, witness: on the empty registry, removing `"x"` for client `"a"` (not
subscribed) leaves the snapshot lookup unchanged, and a second identical
subscribe leaves the snapshot equal to one subscribe. -/
theorem c9_subscription_idempotence_witness :
    lookupEntry "x" (Database.get_subscriptions ([] : Registry) "a") = none ∧
      lookupEntry "x"
          (Database.get_subscriptions
            (Database.remove_subscription ([] : Registry) "a" "x") "a")
        = lookupEntry "x" (Database.get_subscriptions ([] : Registry) "a") ∧
      lookupEntry "x"
          (Database.get_subscriptions
            (Database.add_subscription
              (Database.add_subscription ([] : Registry) "a" "x"
                { subscribe_to_self := false }) "a" "x"
              { subscribe_to_self := false }) "a")
        = lookupEntry "x"
            (Database.get_subscriptions
              (Database.add_subscription ([] : Registry) "a" "x"
                { subscribe_to_self := false }) "a") :=
  ⟨rfl,
    (c9_subscription_idempotence [] "a" "x" { subscribe_to_self := false }).1
      rfl "a" "x",
    (c9_subscription_idempotence [] "a" "x" { subscribe_to_self := false }).2
      "a" "x"⟩

/-- C2, counterexample: the exact §6/S1 payload
`{"set":{"key":"k","value":{"data":{"string":"v"},"expiry":null}}}` does NOT
decode as a `Command`: the `expire_at` field of `command::Value` carries
`#[serde(with = "time::serde::iso8601::option")]` without `#[serde(default)]`,
so serde reports the absent key as a missing field. -/
theorem c2_set_payload_counterexample :
    decodeCommand (fun _ => none)
      (Json.obj [("set", Json.obj [("key", Json.str "k"),
        ("value", Json.obj [("data", Json.obj [("string", Json.str "v")]),
          ("expiry", Json.null)])])])
      = Except.error "missing field expire_at" := rfl

/-- C2, amended: a §6 set payload decodes only when the value object also
carries the `expire_at` field.  With `"expire_at": null` added, decoding
succeeds for every data variant and every decodable `expiry` field, and an
absent or null `expiry` yields a `Set` whose value has no expiry at all. -/
theorem c2_set_decodes_with_expire_at (parseIso : String → Option Int)
    (key : String) (dj : Json) (d : Data) (ef : Option Json) (exp : Option Nat)
    (hd : decodeData dj = Except.ok d)
    (he : decodeExpiryField ef = Except.ok exp) :
    decodeCommand parseIso
        (Json.obj [("set", Json.obj [("key", Json.str key),
          ("value", Json.obj ([("data", dj)] ++
            (match ef with | none => [] | some j => [("expiry", j)]) ++
            [("expire_at", Json.null)]))])])
      = Except.ok (Command.set key { data := d, expiry := exp, expire_at := none })
    ∧ ((ef = none ∨ ef = some Json.null) → exp = none) := by
  constructor
  · cases ef with
    | none =>
      simp [decodeCommand, decodeCmdValue, decodeStrField, decodeExpireAtField,
        lookupEntry, hd]
      simpa [decodeExpiryField] using he
    | some j =>
      simp [decodeCommand, decodeCmdValue, decodeStrField, decodeExpireAtField,
        lookupEntry, hd, he]
  · rintro (rfl | rfl) <;> simpa [decodeExpiryField] using he.symm

/-- C2, witness: the S1 payload completed with `"expire_at": null` decodes to
`Set` with `expiry = none` and `expire_at = none`. -/
theorem c2_set_decodes_with_expire_at_witness :
    decodeData (Json.obj [("string", Json.str "v")])
        = Except.ok (Data.string "v") ∧
      decodeExpiryField (some Json.null) = Except.ok none ∧
      (decodeCommand (fun _ => none)
          (Json.obj [("set", Json.obj [("key", Json.str "k"),
            ("value", Json.obj ([("data", Json.obj [("string", Json.str "v")])] ++
              (match (some Json.null : Option Json) with
                | none => [] | some j => [("expiry", j)]) ++
              [("expire_at", Json.null)]))])])
        = Except.ok (Command.set "k"
            { data := Data.string "v", expiry := none, expire_at := none })
      ∧ (((some Json.null : Option Json) = none ∨
            (some Json.null : Option Json) = some Json.null) →
          (none : Option Nat) = none)) :=
  ⟨rfl, rfl,
    c2_set_decodes_with_expire_at (fun _ => none) "k"
      (Json.obj [("string", Json.str "v")]) (Data.string "v")
      (some Json.null) none rfl rfl⟩
